import Mathlib

/-!
Shallow embedding of the 3djuggler daemon (`main.go`, two revisions) for
verification of its job-orchestration state machine and its remote-queue
client (`InternEnpoint`).

Modelling conventions:
* Timestamps and durations are integers (seconds); `t1.After(t2)` becomes
  `t1 > t2`.
* `float64` progress values are modelled as rationals; Go's `%0.1f`
  formatting is embedded as one-decimal rendering with round-half-to-even
  of the exact value.
* Each HTTP call's nondeterministic outcome (transport failure, body-read
  failure, JSON-decode failure, or a decoded response) is an explicit input.
* The daemon's filesystem side effects are explicit state: the
  gizmostatusfile is `Option Int` (present with its mtime), and the lists
  `reports` / `deletes` record the status strings posted by
  `reportJobStatusChange` and the ids posted by `deleteJob`.
-/

/-- `gcodefeeder.Status` values used by the daemon. -/
inductive FeederStatus where
  | Idle
  | Printing
  | MMUBusy
  | FSensorBusy
  | Finished
  | Error
  deriving Repr, DecidableEq

/-- The `Job` record. Revision 1 has fields `Id .. feederStatus`; revision 2
(`juggler.Job`) additionally carries `Fetched` and `Scheduled`.
Go's `int` id is modelled as `Int` and `float64` progress as `ℚ`. -/
structure Job where
  Id : Int
  Filename : String
  FileContent : String
  Owner : String
  Status : String
  Progress : ℚ
  feederStatus : FeederStatus
  Fetched : Int
  Scheduled : Int
  deriving Repr, DecidableEq

/-- Status string used by revision 1; revision 2's `juggler.StatusWaitingJob`
constant (the juggler package is not part of this file set) is modelled from
the spec as the same state, using revision 1's literal. -/
def StatusWaitingJob : String := "Waiting for job"

/-- Revision 1 literal for the waiting-for-button state (`juggler.StatusWaitingButton`). -/
def StatusWaitingButton : String := "Waiting for a button"

/-- Revision 1 literal for the sending state (`juggler.StatusSending`). -/
def StatusSending : String := "Sending to printer"

/-- Revision 1 literal for the printing state (`juggler.StatusPrinting`). -/
def StatusPrinting : String := "Printing"

/-- Revision 1 literal for the cancelling state (`juggler.StatusCancelling`). -/
def StatusCancelling : String := "Cancelling"

/-- Revision 1 literal for the finished state (`juggler.StatusFinished`). -/
def StatusFinished : String := "Finished"

/-- Revision 1 literal for the button-timeout pseudo-state (`juggler.StatusButtonTimeout`). -/
def StatusButtonTimeout : String := "Button timeout"

/-- `waitingForButtonInterval = 10 * time.Minute`, in seconds. -/
def waitingForButtonInterval : Int := 600

/-- `pollingInterval = 15 * time.Second`, in seconds. -/
def pollingInterval : Int := 15

/-- Errors returned by the `InternEnpoint` methods, by cause:
transport failure of `client.Do`, `ioutil.ReadAll` failure,
`json.Unmarshal` failure, `Success = false` from the remote
(`fmt.Errorf("... unsuccessful ...")`), and the distinguished
`errors.New("Nothing to print")`. -/
inductive JugglerError where
  | transportErr
  | bodyErr
  | decodeErr
  | remoteFailure (msg : String)
  | nothingToPrint
  deriving Repr, DecidableEq

/-- Outcome of the HTTP exchange inside `getJob`: the call can fail in
transport, the body read can fail, the JSON decode can fail, or a decoded
`{Success, Content, Error}` response is obtained. -/
inductive HttpOutcome where
  | transportErr
  | bodyReadErr
  | decodeErr
  | decoded (success : Bool) (errMsg : String) (content : Job)
  deriving Repr, DecidableEq

/-- Outcome of the HTTP exchange of the side-effect-only methods
(`reportJobStatusChange`, `deleteJob`, `reschedule`, `reportStat`): either
`client.Do` fails, or a response with some status code and body is obtained
(never inspected by revision 1's code). -/
inductive Transport where
  | err
  | ok (statusCode : Int) (body : String)
  deriving Repr, DecidableEq

/-- Tenths: the value `q * 10` rounded to the nearest integer, ties to even
(the rounding Go's decimal formatter applies to the exact value at the
requested precision). Computed on `num`/`den` with integer arithmetic. -/
def roundTenthsTiesEven (q : ℚ) : Int :=
  let n10 : Int := q.num * 10
  let d : Int := q.den
  let f : Int := n10.fdiv d
  let twice : Int := 2 * (n10 - f * d)
  if twice < d then f
  else if d < twice then f + 1
  else if f % 2 = 0 then f else f + 1

/-- One-decimal rendering of a nonnegative scaled-by-ten integer:
`425 ↦ "42.5"`. -/
def oneDecimalCore (n : Int) : String :=
  toString (n / 10) ++ "." ++ toString (n % 10)

/-- Embedding of Go's `fmt.Sprintf("%0.1f", q)`. -/
def fmtF1 (q : ℚ) : String :=
  let n := roundTenthsTiesEven q
  if n < 0 then "-" ++ oneDecimalCore (-n) else oneDecimalCore n

/-- The `statusWithProgress` string computed at the top of
`InternEnpoint.reportJobStatusChange`: it starts as `job.Status` and is
overwritten only when `job.Status == "Printing"`, by the feeder-status switch. -/
def statusWithProgress (job : Job) : String :=
  if job.Status = StatusPrinting then
    match job.feederStatus with
    | .Printing => "Printing... (" ++ fmtF1 job.Progress ++ "%)"
    | .MMUBusy => "Printing paused: MMU paused printing"
    | .FSensorBusy => "Printing paused: Filament sensor paused printing"
    | _ => job.Status
  else job.Status

/-- The action-specific form fields each `InternEnpoint` method posts
(besides the constant credential fields). -/
structure PostedForm where
  action : String
  status : Option String
  id : Option Int
  deriving Repr, DecidableEq

/-- `InternEnpoint.reportJobStatusChange`: posts `action=update` with
`statusWithProgress` and the job id; returns the error of `client.Do` if the
transport fails and `nil` otherwise — the response is never read. -/
def reportJobStatusChange (t : Transport) (job : Job) : PostedForm × Option JugglerError :=
  (⟨"update", some (statusWithProgress job), some job.Id⟩,
   match t with
   | .err => some .transportErr
   | .ok _ _ => none)

/-- `InternEnpoint.deleteJob`: posts `action=delete` with the job id; error
iff the transport fails, response never read. -/
def deleteJob (t : Transport) (job : Job) : PostedForm × Option JugglerError :=
  (⟨"delete", none, some job.Id⟩,
   match t with
   | .err => some .transportErr
   | .ok _ _ => none)

/-- `InternEnpoint.reschedule`: posts `action=reschedule`; error iff the
transport fails, response never read. -/
def reschedule (t : Transport) : PostedForm × Option JugglerError :=
  (⟨"reschedule", none, none⟩,
   match t with
   | .err => some .transportErr
   | .ok _ _ => none)

/-- `InternEnpoint.reportStat`: posts `action=heartbeat`; error iff the
transport fails, response never read. -/
def reportStat (t : Transport) : PostedForm × Option JugglerError :=
  (⟨"heartbeat", none, none⟩,
   match t with
   | .err => some .transportErr
   | .ok _ _ => none)

/-- `InternEnpoint.getJob`: on a decoded response with `Success = true` the
client's stored snapshot `ie.job` is overwritten with `Content`, and only
then is `ie.job.Id == 0` checked (returning `errors.New("Nothing to print")`).
On transport/body/decode failure or `Success = false` the snapshot is left
unchanged. Returns the new snapshot and the error. -/
def getJob (resp : HttpOutcome) (iejob : Job) : Job × Option JugglerError :=
  match resp with
  | .transportErr => (iejob, some .transportErr)
  | .bodyReadErr => (iejob, some .bodyErr)
  | .decodeErr => (iejob, some .decodeErr)
  | .decoded success errMsg content =>
    if success then
      if content.Id = 0 then (content, some .nothingToPrint)
      else (content, none)
    else (iejob, some (.remoteFailure errMsg))

/-- Mutable daemon state threaded through a tick: the active `daemon.job`,
the client snapshot `ie.job`, the gizmostatusfile (present with its mtime),
a count of `feeder.Cancel()` calls, and the histories of status strings
posted by `reportJobStatusChange` and ids posted by `deleteJob`. -/
structure DaemonState where
  job : Job
  iejob : Job
  gizmoFile : Option Int
  feederCancels : Nat
  reports : List String
  deletes : List Int
  deriving Repr, DecidableEq

/-- Nondeterministic inputs consumed by one tick: the clock, the outcome of
the tick's `getJob` HTTP call (`fetchResp2` is the second call made when
`WaitingJob` falls through into `WaitingButton`), the button check
(`Daemon.checkButtonPressed` is not among the given sources; modelled from
the spec: "check the device confirmation signal; if pressed"), the success
of the staging-file write and of `gcodefeeder.NewFeeder`, the feeder's
progress/status readings, and the transport outcomes of the reporting and
delete calls. -/
structure TickEnv where
  now : Int
  fetchResp : HttpOutcome
  fetchResp2 : HttpOutcome
  buttonPressed : Bool
  writeFileOk : Bool
  newFeederOk : Bool
  feederProgress : Int
  feederStat : FeederStatus
  reportResp : Transport
  deleteResp : Transport
  deriving Repr, DecidableEq

/-- Record one `ie.reportJobStatusChange(daemon.job)` call: the status
string it posts is appended to the report history (the call's own error is
only logged). -/
def doReport (t : Transport) (s : DaemonState) : DaemonState :=
  { s with reports := s.reports ++ [(reportJobStatusChange t s.job).1.status.getD ""] }

/-- Modelled from the spec: `Daemon.UpdateStatus` lives in the `juggler`
package, which is not among the given sources. Per the spec, every revision-2
transition routed through it sets `Status` and performs `reportStatusChange`. -/
def UpdateStatus (t : Transport) (status : String) (s : DaemonState) : DaemonState :=
  doReport t { s with job := { s.job with Status := status } }

/-- Revision 1 `WaitingButton` handler (the `"Waiting for a button"` case):
`getJob`; if the fetch succeeded and the remote job is `Cancelling`, set
local status `Cancelling` and break (no report in this branch); otherwise
stat the gizmostatusfile: absent means device-cancel (report), present with
`mtime + waitingForButtonInterval` in the future means check the button
(press reports `Sending to printer`), else the timeout branch reports
`Button timeout` and resets to `Waiting for job` with `Id = 0`, removing
the file. -/
def waitingButtonRev1 (env : TickEnv) (resp : HttpOutcome) (s : DaemonState) : DaemonState :=
  let g := getJob resp s.iejob
  let s1 := { s with iejob := g.1 }
  if g.2 = none ∧ g.1.Status = StatusCancelling then
    { s1 with job := { s1.job with Status := StatusCancelling } }
  else
    match s1.gizmoFile with
    | none =>
      doReport env.reportResp { s1 with job := { s1.job with Status := StatusCancelling } }
    | some mtime =>
      if mtime + waitingForButtonInterval > env.now then
        if env.buttonPressed then
          doReport env.reportResp { s1 with job := { s1.job with Status := StatusSending } }
        else s1
      else
        let s2 := doReport env.reportResp { s1 with job := { s1.job with Status := StatusButtonTimeout } }
        { s2 with job := { s2.job with Status := StatusWaitingJob, Id := 0 }, gizmoFile := none }

/-- Revision 2 `WaitingButton` handler (`juggler.StatusWaitingButton` case):
as revision 1 but transitions go through `UpdateStatus`, and when the file
clock has expired the in-memory `Job.Scheduled` deadline is consulted: still
in the future means stay (log only), else the timeout branch runs
(`UpdateStatus` with `Button timeout` then with `Waiting for job`, `Id = 0`,
file removed). -/
def waitingButtonRev2 (env : TickEnv) (resp : HttpOutcome) (s : DaemonState) : DaemonState :=
  let g := getJob resp s.iejob
  let s1 := { s with iejob := g.1 }
  if g.2 = none ∧ g.1.Status = StatusCancelling then
    UpdateStatus env.reportResp StatusCancelling s1
  else
    match s1.gizmoFile with
    | none => UpdateStatus env.reportResp StatusCancelling s1
    | some mtime =>
      if mtime + waitingForButtonInterval > env.now then
        if env.buttonPressed then UpdateStatus env.reportResp StatusSending s1
        else s1
      else if s1.job.Scheduled > env.now then s1
      else
        let s2 := UpdateStatus env.reportResp StatusButtonTimeout s1
        let s3 := UpdateStatus env.reportResp StatusWaitingJob s2
        { s3 with job := { s3.job with Id := 0 }, gizmoFile := none }

/-- Revision 1 `WaitingJob` handler (`"Waiting for job"` case): `nextJob`
(= `getJob 0`); on error break with no fallthrough; on success copy the
fetched fields, mark `Waiting for a button`, report, recreate the
gizmostatusfile (its mtime becomes the current tick time) and fall through. -/
def waitingJobRev1 (env : TickEnv) (s : DaemonState) : DaemonState × Bool :=
  let g := getJob env.fetchResp s.iejob
  let s1 := { s with iejob := g.1 }
  match g.2 with
  | some _ => (s1, false)
  | none =>
    let j := { s1.job with
                Id := g.1.Id
                Filename := g.1.Filename
                FileContent := g.1.FileContent
                Status := StatusWaitingButton
                Progress := g.1.Progress
                Owner := g.1.Owner }
    let s2 := doReport env.reportResp { s1 with job := j }
    ({ s2 with gizmoFile := some env.now }, true)

/-- Revision 2 `WaitingJob` handler: copies the fetched fields, sets
`Fetched = now` and `Scheduled = now + waitingForButtonInterval`, recreates
the gizmostatusfile, then `UpdateStatus(StatusWaitingButton)` and falls
through. -/
def waitingJobRev2 (env : TickEnv) (s : DaemonState) : DaemonState × Bool :=
  let g := getJob env.fetchResp s.iejob
  let s1 := { s with iejob := g.1 }
  match g.2 with
  | some _ => (s1, false)
  | none =>
    let j := { s1.job with
                Id := g.1.Id
                Filename := g.1.Filename
                FileContent := g.1.FileContent
                Progress := g.1.Progress
                Owner := g.1.Owner
                Fetched := env.now
                Scheduled := env.now + waitingForButtonInterval }
    let s2 := { s1 with job := j, gizmoFile := some env.now }
    (UpdateStatus env.reportResp StatusWaitingButton s2, true)

/-- Revision 1 `Sending to printer` handler: stay on staging-write failure
or `NewFeeder` failure; otherwise mark `Printing`, report, and start the
background feed. -/
def sendingRev1 (env : TickEnv) (s : DaemonState) : DaemonState :=
  if !env.writeFileOk then s
  else if !env.newFeederOk then s
  else doReport env.reportResp { s with job := { s.job with Status := StatusPrinting } }

/-- Revision 2 `Sending` handler: as revision 1 but via `UpdateStatus`. -/
def sendingRev2 (env : TickEnv) (s : DaemonState) : DaemonState :=
  if !env.writeFileOk then s
  else if !env.newFeederOk then s
  else UpdateStatus env.reportResp StatusPrinting s

/-- Revision 1 `Printing` handler: gizmostatusfile absence means
device-cancel (`Cancelling`, `feeder.Cancel()`, report, break); else
`getJob`, and a successful fetch reporting `Cancelling` means remote-cancel
(`Cancelling`, report, `feeder.Cancel()`, break); else copy
`feeder.Progress()` and `feeder.Status()` into the job, map
`Finished ↦ Finished`, `Error ↦ Cancelling` (anything else stays
`Printing`), and report. -/
def printingRev1 (env : TickEnv) (resp : HttpOutcome) (s : DaemonState) : DaemonState :=
  match s.gizmoFile with
  | none =>
    let s1 := { s with
                job := { s.job with Status := StatusCancelling }
                feederCancels := s.feederCancels + 1 }
    doReport env.reportResp s1
  | some _ =>
    let g := getJob resp s.iejob
    let s1 := { s with iejob := g.1 }
    if g.2 = none ∧ g.1.Status = StatusCancelling then
      let s2 := doReport env.reportResp { s1 with job := { s1.job with Status := StatusCancelling } }
      { s2 with feederCancels := s2.feederCancels + 1 }
    else
      let j0 := { s1.job with Progress := (env.feederProgress : ℚ), feederStatus := env.feederStat }
      let j := match env.feederStat with
        | .Finished => { j0 with Status := StatusFinished }
        | .Error => { j0 with Status := StatusCancelling }
        | _ => j0
      doReport env.reportResp { s1 with job := j }

/-- Revision 2 `Printing` handler: as revision 1 (device-cancel calls
`feeder.Cancel()` before `UpdateStatus`), with the feeder-status switch's
default case explicitly re-reporting the unchanged status through
`UpdateStatus(daemon.job.Status)`. -/
def printingRev2 (env : TickEnv) (resp : HttpOutcome) (s : DaemonState) : DaemonState :=
  match s.gizmoFile with
  | none =>
    UpdateStatus env.reportResp StatusCancelling { s with feederCancels := s.feederCancels + 1 }
  | some _ =>
    let g := getJob resp s.iejob
    let s1 := { s with iejob := g.1 }
    if g.2 = none ∧ g.1.Status = StatusCancelling then
      let s2 := UpdateStatus env.reportResp StatusCancelling s1
      { s2 with feederCancels := s2.feederCancels + 1 }
    else
      let j0 := { s1.job with Progress := (env.feederProgress : ℚ), feederStatus := env.feederStat }
      let s2 := { s1 with job := j0 }
      match env.feederStat with
      | .Finished => UpdateStatus env.reportResp StatusFinished s2
      | .Error => UpdateStatus env.reportResp StatusCancelling s2
      | _ => UpdateStatus env.reportResp s2.job.Status s2

/-- Revision 1 `Cancelling`/`Finished` handler (one case body reached by
fallthrough from `Cancelling`): `deleteJob` (error only logged), then
`Id = 0`, `Status = "Waiting for job"`, and the gizmostatusfile is removed. -/
def cancellingFinishedRev1 (env : TickEnv) (s : DaemonState) : DaemonState :=
  let s1 := { s with deletes := s.deletes ++ [(deleteJob env.deleteResp s.job).1.id.getD 0] }
  { s1 with job := { s1.job with Id := 0, Status := StatusWaitingJob }, gizmoFile := none }

/-- Revision 2 `Cancelling`/`Finished` handler: `deleteJob`, `Id = 0`,
`UpdateStatus(StatusWaitingJob)`, remove the gizmostatusfile. -/
def cancellingFinishedRev2 (env : TickEnv) (s : DaemonState) : DaemonState :=
  let s1 := { s with deletes := s.deletes ++ [(deleteJob env.deleteResp s.job).1.id.getD 0] }
  let s2 := { s1 with job := { s1.job with Id := 0 } }
  { UpdateStatus env.reportResp StatusWaitingJob s2 with gizmoFile := none }

/-- One revision-1 tick body (after the logged-only `reportStat` heartbeat):
dispatch on `daemon.job.Status`; `WaitingJob` falls through into
`WaitingButton` in the same tick (second `getJob` outcome `fetchResp2`);
an unrecognized status only logs. -/
def tickRev1 (env : TickEnv) (s : DaemonState) : DaemonState :=
  if s.job.Status = StatusWaitingJob then
    let r := waitingJobRev1 env s
    if r.2 then waitingButtonRev1 env env.fetchResp2 r.1 else r.1
  else if s.job.Status = StatusWaitingButton then
    waitingButtonRev1 env env.fetchResp s
  else if s.job.Status = StatusSending then sendingRev1 env s
  else if s.job.Status = StatusPrinting then printingRev1 env env.fetchResp s
  else if s.job.Status = StatusCancelling then cancellingFinishedRev1 env s
  else if s.job.Status = StatusFinished then cancellingFinishedRev1 env s
  else s

/-- One revision-2 tick body, same dispatch shape as revision 1. -/
def tickRev2 (env : TickEnv) (s : DaemonState) : DaemonState :=
  if s.job.Status = StatusWaitingJob then
    let r := waitingJobRev2 env s
    if r.2 then waitingButtonRev2 env env.fetchResp2 r.1 else r.1
  else if s.job.Status = StatusWaitingButton then
    waitingButtonRev2 env env.fetchResp s
  else if s.job.Status = StatusSending then sendingRev2 env s
  else if s.job.Status = StatusPrinting then printingRev2 env env.fetchResp s
  else if s.job.Status = StatusCancelling then cancellingFinishedRev2 env s
  else if s.job.Status = StatusFinished then cancellingFinishedRev2 env s
  else s

/-- The fetch succeeded and the fetched remote job reports `Cancelling`
(`err == nil && ie.job.Status == StatusCancelling`). -/
def remoteSaysCancelling (resp : HttpOutcome) (iejob : Job) : Bool :=
  (getJob resp iejob).2 = none ∧ (getJob resp iejob).1.Status = StatusCancelling
/-- C5: `getJob` returns an error iff the transport fails, the body read or
decode fails, the response has `Success = false`, or the decoded job has
`Id = 0`; the `Id = 0` case returns the distinguished "Nothing to print"
error, and on any successful return the stored snapshot has `Id ≠ 0`. -/
theorem getJob_error_characterization (resp : HttpOutcome) (prev : Job) :
    ((getJob resp prev).2 = none ↔
      ∃ msg c, resp = .decoded true msg c ∧ c.Id ≠ 0)
    ∧ ((getJob resp prev).2 = some .nothingToPrint ↔
      ∃ msg c, resp = .decoded true msg c ∧ c.Id = 0)
    ∧ ((getJob resp prev).2 = none → (getJob resp prev).1.Id ≠ 0) := by
  rcases resp with _ | _ | _ | ⟨success, msg, c⟩ <;>
    simp only [getJob]
  · simp
  · simp
  · simp
  · rcases success with _ | _
    · simp
    · by_cases h : c.Id = 0 <;> simp [h] <;> exact ⟨msg, c, ⟨rfl, rfl⟩, h⟩

/-- C5 witness: a decoded successful response with a nonzero id yields no
error, and the snapshot then holds that id. -/
theorem getJob_error_characterization_witness :
    (getJob (.decoded true "" ⟨7, "", "", "", "", 0, .Idle, 0, 0⟩)
      ⟨0, "", "", "", "", 0, .Idle, 0, 0⟩).1.Id ≠ 0 :=
  (getJob_error_characterization (.decoded true "" ⟨7, "", "", "", "", 0, .Idle, 0, 0⟩)
    ⟨0, "", "", "", "", 0, .Idle, 0, 0⟩).2.2 (by decide)

/-- C9: the side-effect-only operations return an error iff the transport
fails; any received response — whatever its HTTP status code or body, e.g. a
well-formed `Success = false` reply — yields `nil`. -/
theorem sideEffectOps_transport_only (job : Job) (code : Int) (body : String) :
    (reportJobStatusChange .err job).2 = some .transportErr
    ∧ (reportJobStatusChange (.ok code body) job).2 = none
    ∧ (deleteJob .err job).2 = some .transportErr
    ∧ (deleteJob (.ok code body) job).2 = none
    ∧ (reschedule .err).2 = some .transportErr
    ∧ (reschedule (.ok code body)).2 = none
    ∧ (reportStat .err).2 = some .transportErr
    ∧ (reportStat (.ok code body)).2 = none := by
  simp [reportJobStatusChange, deleteJob, reschedule, reportStat]

/-- C10: `getJob` overwrites the stored snapshot with the decoded `Content`
before the `Id = 0` check: after a `Success = true` response the snapshot is
the fetched job (also in the "Nothing to print" case), while transport,
body-read, decode and `Success = false` failures leave it unchanged. -/
theorem getJob_snapshot_overwrite (prev : Job) (msg : String) (c : Job) :
    (getJob .transportErr prev).1 = prev
    ∧ (getJob .bodyReadErr prev).1 = prev
    ∧ (getJob .decodeErr prev).1 = prev
    ∧ (getJob (.decoded false msg c) prev).1 = prev
    ∧ (getJob (.decoded true msg c) prev).1 = c := by
  by_cases h : c.Id = 0 <;> simp [getJob, h]

/-- C8: for a job with `Status = "Printing"` the string sent by
`reportJobStatusChange` is determined solely by `FeederStatus` and
`Progress`: feeder `Printing` gives the one-decimal progress rendering,
`MMUBusy`/`FSensorBusy` give the fixed paused strings; for any other
`Status` the raw status string is sent unchanged. -/
theorem reportJobStatusChange_string (t : Transport) (j j2 : Job) :
    (reportJobStatusChange t j).1.status = some (statusWithProgress j)
    ∧ (j.Status = StatusPrinting →
        (j.feederStatus = .Printing →
          statusWithProgress j = "Printing... (" ++ fmtF1 j.Progress ++ "%)")
        ∧ (j.feederStatus = .MMUBusy →
          statusWithProgress j = "Printing paused: MMU paused printing")
        ∧ (j.feederStatus = .FSensorBusy →
          statusWithProgress j = "Printing paused: Filament sensor paused printing"))
    ∧ (j.Status ≠ StatusPrinting → statusWithProgress j = j.Status)
    ∧ (j.Status = StatusPrinting → j2.Status = StatusPrinting →
        j.feederStatus = j2.feederStatus → j.Progress = j2.Progress →
        statusWithProgress j = statusWithProgress j2) := by
  refine ⟨rfl, ?_, ?_, ?_⟩
  · intro hp
    refine ⟨?_, ?_, ?_⟩ <;> intro hf <;> simp [statusWithProgress, hp, hf]
  · intro hp
    simp [statusWithProgress, hp]
  · intro hp hp2 hf hq
    simp [statusWithProgress, hp, hp2, ← hf, ← hq]

/-- C8 witness: a printing job with `Progress = 42.5` reports exactly
`"Printing... (42.5%)"`. -/
theorem reportJobStatusChange_string_witness :
    Job.Status ⟨7, "", "", "", "Printing", mkRat 85 2, .Printing, 0, 0⟩ = StatusPrinting
    ∧ statusWithProgress ⟨7, "", "", "", "Printing", mkRat 85 2, .Printing, 0, 0⟩
      = "Printing... (42.5%)" := by
  refine ⟨by decide, ?_⟩
  have h := ((reportJobStatusChange_string Transport.err
    ⟨7, "", "", "", "Printing", mkRat 85 2, .Printing, 0, 0⟩
    ⟨7, "", "", "", "Printing", mkRat 85 2, .Printing, 0, 0⟩).2.1 (by decide)).1 (by decide)
  rw [h]
  decide

/-- C7: the `Cancelling` and `Finished` handlers are the same cleanup (the
`Cancelling` case falls through): `deleteJob` is called, and regardless of
its outcome the tick ends with `Id = 0`, `Status = "Waiting for job"` and
the gizmostatusfile removed; hence `Id = 0 ↔ Status = WaitingJob` right
after cleanup. -/
theorem cancellingFinished_cleanup (env : TickEnv) (s : DaemonState)
    (h : s.job.Status = StatusCancelling ∨ s.job.Status = StatusFinished) :
    tickRev1 env s = cancellingFinishedRev1 env s
    ∧ tickRev2 env s = cancellingFinishedRev2 env s
    ∧ (tickRev1 env s).deletes = s.deletes ++ [s.job.Id]
    ∧ (tickRev1 env s).job.Id = 0
    ∧ (tickRev1 env s).job.Status = StatusWaitingJob
    ∧ (tickRev1 env s).gizmoFile = none
    ∧ ((tickRev1 env s).job.Id = 0 ↔ (tickRev1 env s).job.Status = StatusWaitingJob)
    ∧ (tickRev2 env s).deletes = s.deletes ++ [s.job.Id]
    ∧ (tickRev2 env s).job.Id = 0
    ∧ (tickRev2 env s).job.Status = StatusWaitingJob
    ∧ (tickRev2 env s).gizmoFile = none
    ∧ ((tickRev2 env s).job.Id = 0 ↔ (tickRev2 env s).job.Status = StatusWaitingJob) := by
  have h1 : tickRev1 env s = cancellingFinishedRev1 env s := by
    rcases h with h | h <;> simp +decide [tickRev1, h]
  have h2 : tickRev2 env s = cancellingFinishedRev2 env s := by
    rcases h with h | h <;> simp +decide [tickRev2, h]
  rw [h1, h2]
  simp +decide [cancellingFinishedRev1, cancellingFinishedRev2, deleteJob,
    UpdateStatus, doReport]

/-- C7 witness: cleanup of a concrete finished job. -/
theorem cancellingFinished_cleanup_witness :
    (Job.Status ⟨7, "", "", "", "Finished", 0, .Idle, 0, 0⟩ = StatusCancelling
      ∨ Job.Status ⟨7, "", "", "", "Finished", 0, .Idle, 0, 0⟩ = StatusFinished)
    ∧ (tickRev1 ⟨1000, .transportErr, .transportErr, false, true, true, 0, .Idle, .ok 200 "", .ok 200 ""⟩
        ⟨⟨7, "", "", "", "Finished", 0, .Idle, 0, 0⟩, ⟨0, "", "", "", "", 0, .Idle, 0, 0⟩,
          some 500, 0, [], []⟩).job.Id = 0 :=
  ⟨Or.inr (by decide),
    (cancellingFinished_cleanup
      ⟨1000, .transportErr, .transportErr, false, true, true, 0, .Idle, .ok 200 "", .ok 200 ""⟩
      ⟨⟨7, "", "", "", "Finished", 0, .Idle, 0, 0⟩, ⟨0, "", "", "", "", 0, .Idle, 0, 0⟩,
        some 500, 0, [], []⟩ (Or.inr (by decide))).2.2.2.1⟩

/-- C4: in a tick executed in state `WaitingButton` or `Printing` with the
gizmostatusfile absent, the tick ends with `Status = Cancelling` whatever
the remote fetch returns; in the `Printing` case `feeder.Cancel()` is also
called. -/
theorem tick_deviceCancel (env : TickEnv) (s : DaemonState)
    (h : s.gizmoFile = none) :
    (s.job.Status = StatusWaitingButton →
      (tickRev1 env s).job.Status = StatusCancelling
      ∧ (tickRev2 env s).job.Status = StatusCancelling)
    ∧ (s.job.Status = StatusPrinting →
      ((tickRev1 env s).job.Status = StatusCancelling
        ∧ (tickRev1 env s).feederCancels = s.feederCancels + 1)
      ∧ ((tickRev2 env s).job.Status = StatusCancelling
        ∧ (tickRev2 env s).feederCancels = s.feederCancels + 1)) := by
  constructor
  · intro hs
    have e1 : tickRev1 env s = waitingButtonRev1 env env.fetchResp s := by
      simp +decide [tickRev1, hs]
    have e2 : tickRev2 env s = waitingButtonRev2 env env.fetchResp s := by
      simp +decide [tickRev2, hs]
    rw [e1, e2]
    constructor
    · simp only [waitingButtonRev1]
      split
      · simp
      · simp [h, doReport]
    · simp only [waitingButtonRev2]
      split
      · simp [UpdateStatus, doReport]
      · simp [h, UpdateStatus, doReport]
  · intro hs
    have e1 : tickRev1 env s = printingRev1 env env.fetchResp s := by
      simp +decide [tickRev1, hs]
    have e2 : tickRev2 env s = printingRev2 env env.fetchResp s := by
      simp +decide [tickRev2, hs]
    rw [e1, e2]
    simp only [printingRev1, printingRev2, h]
    simp [doReport, UpdateStatus]

/-- C4 witness: a printing job whose gizmostatusfile is gone is cancelled
and the feeder cancel is requested, even though the remote fetch succeeded
with a non-cancelling job. -/
theorem tick_deviceCancel_witness :
    DaemonState.gizmoFile ⟨⟨7, "", "", "", "Printing", 0, .Printing, 0, 0⟩,
        ⟨0, "", "", "", "", 0, .Idle, 0, 0⟩, none, 0, [], []⟩ = none
    ∧ Job.Status ⟨7, "", "", "", "Printing", 0, .Printing, 0, 0⟩ = StatusPrinting
    ∧ (tickRev1 ⟨1000, .decoded true "" ⟨7, "", "", "", "Printing", 0, .Idle, 0, 0⟩,
          .transportErr, false, true, true, 3, .Printing, .ok 200 "", .ok 200 ""⟩
        ⟨⟨7, "", "", "", "Printing", 0, .Printing, 0, 0⟩,
          ⟨0, "", "", "", "", 0, .Idle, 0, 0⟩, none, 0, [], []⟩).job.Status
        = StatusCancelling :=
  ⟨rfl, by decide,
    (((tick_deviceCancel
      ⟨1000, .decoded true "" ⟨7, "", "", "", "Printing", 0, .Idle, 0, 0⟩,
        .transportErr, false, true, true, 3, .Printing, .ok 200 "", .ok 200 ""⟩
      ⟨⟨7, "", "", "", "Printing", 0, .Printing, 0, 0⟩,
        ⟨0, "", "", "", "", 0, .Idle, 0, 0⟩, none, 0, [], []⟩ rfl).2 (by decide)).1).1⟩

/-- C3 counterexample: in revision 1's `WaitingButton` handler, a successful
fetch reporting `Cancelling` sets the local status to `Cancelling` but posts
no status report in that tick (the report history stays empty), contradicting
the claim that `reportStatusChange` is called for that transition. -/
theorem waitingButton_remoteCancel_noReport_rev1 :
    remoteSaysCancelling
      (.decoded true "" ⟨7, "", "", "", "Cancelling", 0, .Idle, 0, 0⟩)
      ⟨0, "", "", "", "", 0, .Idle, 0, 0⟩ = true
    ∧ (waitingButtonRev1
        ⟨1000, .transportErr, .transportErr, false, true, true, 0, .Idle, .ok 200 "", .ok 200 ""⟩
        (.decoded true "" ⟨7, "", "", "", "Cancelling", 0, .Idle, 0, 0⟩)
        ⟨⟨7, "", "", "", "Waiting for a button", 0, .Idle, 0, 1600⟩,
          ⟨0, "", "", "", "", 0, .Idle, 0, 0⟩, some 500, 0, [], []⟩).job.Status
      = StatusCancelling
    ∧ (waitingButtonRev1
        ⟨1000, .transportErr, .transportErr, false, true, true, 0, .Idle, .ok 200 "", .ok 200 ""⟩
        (.decoded true "" ⟨7, "", "", "", "Cancelling", 0, .Idle, 0, 0⟩)
        ⟨⟨7, "", "", "", "Waiting for a button", 0, .Idle, 0, 1600⟩,
          ⟨0, "", "", "", "", 0, .Idle, 0, 0⟩, some 500, 0, [], []⟩).reports = [] := by
  decide

/-- C3 amended: in `WaitingButton`, a successful fetch whose job reports
`Cancelling` makes both revisions set the local status to `Cancelling` and
stop for the tick; revision 2 reports the transition (via `UpdateStatus`),
but revision 1 issues no status report in this branch. -/
theorem waitingButton_remoteCancel (env : TickEnv) (resp : HttpOutcome)
    (s : DaemonState)
    (hrc : remoteSaysCancelling resp s.iejob = true) :
    ((waitingButtonRev1 env resp s).job.Status = StatusCancelling
      ∧ (waitingButtonRev1 env resp s).reports = s.reports)
    ∧ ((waitingButtonRev2 env resp s).job.Status = StatusCancelling
      ∧ (waitingButtonRev2 env resp s).reports = s.reports ++ [StatusCancelling]) := by
  rw [remoteSaysCancelling, decide_eq_true_eq] at hrc
  simp +decide [waitingButtonRev1, waitingButtonRev2, hrc.1, hrc.2,
    UpdateStatus, doReport, reportJobStatusChange, statusWithProgress]

/-- C3 witness: the amended behaviour at a concrete cancelling fetch. -/
theorem waitingButton_remoteCancel_witness :
    remoteSaysCancelling
      (.decoded true "" ⟨7, "", "", "", "Cancelling", 0, .Idle, 0, 0⟩)
      (DaemonState.iejob ⟨⟨7, "", "", "", "Waiting for a button", 0, .Idle, 0, 1600⟩,
        ⟨0, "", "", "", "", 0, .Idle, 0, 0⟩, some 500, 0, [], []⟩) = true
    ∧ (waitingButtonRev2
        ⟨1000, .transportErr, .transportErr, false, true, true, 0, .Idle, .ok 200 "", .ok 200 ""⟩
        (.decoded true "" ⟨7, "", "", "", "Cancelling", 0, .Idle, 0, 0⟩)
        ⟨⟨7, "", "", "", "Waiting for a button", 0, .Idle, 0, 1600⟩,
          ⟨0, "", "", "", "", 0, .Idle, 0, 0⟩, some 500, 0, [], []⟩).reports
      = [] ++ [StatusCancelling] :=
  ⟨by decide,
    (waitingButton_remoteCancel
      ⟨1000, .transportErr, .transportErr, false, true, true, 0, .Idle, .ok 200 "", .ok 200 ""⟩
      (.decoded true "" ⟨7, "", "", "", "Cancelling", 0, .Idle, 0, 0⟩)
      ⟨⟨7, "", "", "", "Waiting for a button", 0, .Idle, 0, 1600⟩,
        ⟨0, "", "", "", "", 0, .Idle, 0, 0⟩, some 500, 0, [], []⟩ (by decide)).2.2⟩

/-- C1 counterexample: in revision 2's `WaitingButton` handler, with the
signal-file clock still in the future (`mtime 500 + 600 > now 1000`) but the
in-memory `Job.Scheduled = 900` deadline already expired, the button IS
checked and a press moves the job to `Sending to printer` — contradicting
the claim that the button-press check requires BOTH clocks to be in the
future. -/
theorem buttonCheck_ignores_scheduled :
    ((500 : Int) + waitingForButtonInterval > 1000)
    ∧ ¬((900 : Int) > 1000)
    ∧ (waitingButtonRev2
        ⟨1000, .transportErr, .transportErr, true, true, true, 0, .Idle, .ok 200 "", .ok 200 ""⟩
        (.decoded true "" ⟨7, "", "", "", "Waiting for a button", 0, .Idle, 0, 900⟩)
        ⟨⟨7, "", "", "", "Waiting for a button", 0, .Idle, 0, 900⟩,
          ⟨0, "", "", "", "", 0, .Idle, 0, 0⟩, some 500, 0, [], []⟩).job.Status
      = StatusSending := by
  decide

/-- C1 amended: with the signal file present and the remote fetch not
reporting `Cancelling`, revision 2 gates the button-press check solely on
the file clock: if `mtime + waitingForButtonInterval` is in the future a
press yields `Sending` regardless of `Job.Scheduled`; once the file clock
has expired the button is no longer consulted (the tick's outcome is
independent of it) and `Job.Scheduled` only decides between staying put and
the timeout transition to `Waiting for job`. -/
theorem buttonCheck_fileClock_only (env : TickEnv) (resp : HttpOutcome)
    (s : DaemonState) (mtime : Int)
    (hrc : remoteSaysCancelling resp s.iejob = false)
    (hg : s.gizmoFile = some mtime) :
    (mtime + waitingForButtonInterval > env.now → env.buttonPressed = true →
      (waitingButtonRev2 env resp s).job.Status = StatusSending)
    ∧ (¬(mtime + waitingForButtonInterval > env.now) →
        (∀ b1 b2 : Bool,
          waitingButtonRev2 { env with buttonPressed := b1 } resp s
            = waitingButtonRev2 { env with buttonPressed := b2 } resp s)
        ∧ (s.job.Scheduled > env.now →
            waitingButtonRev2 env resp s = { s with iejob := (getJob resp s.iejob).1 })
        ∧ (¬(s.job.Scheduled > env.now) →
            (waitingButtonRev2 env resp s).job.Status = StatusWaitingJob)) := by
  rw [remoteSaysCancelling, decide_eq_false_iff_not] at hrc
  refine ⟨?_, ?_⟩
  · intro hclock hbtn
    simp +decide [waitingButtonRev2, hrc, hg, hclock, hbtn, UpdateStatus, doReport]
  · intro hclock
    refine ⟨?_, ?_, ?_⟩
    · intro b1 b2
      simp [waitingButtonRev2, hrc, hg, hclock]
    · intro hsch
      simp [waitingButtonRev2, hrc, hg, hclock, hsch]
    · intro hsch
      simp +decide [waitingButtonRev2, hrc, hg, hclock, hsch, UpdateStatus, doReport]

/-- C1 witness: the amended behaviour at the counterexample's input. -/
theorem buttonCheck_fileClock_only_witness :
    remoteSaysCancelling
      (.decoded true "" ⟨7, "", "", "", "Waiting for a button", 0, .Idle, 0, 900⟩)
      (DaemonState.iejob ⟨⟨7, "", "", "", "Waiting for a button", 0, .Idle, 0, 900⟩,
        ⟨0, "", "", "", "", 0, .Idle, 0, 0⟩, some 500, 0, [], []⟩) = false
    ∧ (waitingButtonRev2
        ⟨1000, .transportErr, .transportErr, true, true, true, 0, .Idle, .ok 200 "", .ok 200 ""⟩
        (.decoded true "" ⟨7, "", "", "", "Waiting for a button", 0, .Idle, 0, 900⟩)
        ⟨⟨7, "", "", "", "Waiting for a button", 0, .Idle, 0, 900⟩,
          ⟨0, "", "", "", "", 0, .Idle, 0, 0⟩, some 500, 0, [], []⟩).job.Status
      = StatusSending :=
  ⟨by decide,
    (buttonCheck_fileClock_only
      ⟨1000, .transportErr, .transportErr, true, true, true, 0, .Idle, .ok 200 "", .ok 200 ""⟩
      (.decoded true "" ⟨7, "", "", "", "Waiting for a button", 0, .Idle, 0, 900⟩)
      ⟨⟨7, "", "", "", "Waiting for a button", 0, .Idle, 0, 900⟩,
        ⟨0, "", "", "", "", 0, .Idle, 0, 0⟩, some 500, 0, [], []⟩ 500
      (by decide) rfl).1 (by decide) rfl⟩

/-- C2: a job fetched at `t0` arms the signal file at mtime `t0` and (in
revision 2) sets `Scheduled = t0 + waitingForButtonInterval`; if the file
still exists, the remote does not report `Cancelling`, and a tick runs at or
after `t0 + waitingForButtonInterval`, the `WaitingButton` handler reports
`Button timeout`, then sets `Status = "Waiting for job"`, resets `Id` to 0
and removes the signal file — all in that same tick, in both revisions. -/
theorem buttonTimeout_tick (env : TickEnv) (resp : HttpOutcome)
    (s : DaemonState) (t0 : Int)
    (hg : s.gizmoFile = some t0)
    (hsch : s.job.Scheduled = t0 + waitingForButtonInterval)
    (hnow : t0 + waitingForButtonInterval ≤ env.now)
    (hrc : remoteSaysCancelling resp s.iejob = false) :
    ((waitingButtonRev1 env resp s).reports = s.reports ++ [StatusButtonTimeout]
      ∧ (waitingButtonRev1 env resp s).job.Status = StatusWaitingJob
      ∧ (waitingButtonRev1 env resp s).job.Id = 0
      ∧ (waitingButtonRev1 env resp s).gizmoFile = none)
    ∧ ((waitingButtonRev2 env resp s).reports
        = s.reports ++ [StatusButtonTimeout, StatusWaitingJob]
      ∧ (waitingButtonRev2 env resp s).job.Status = StatusWaitingJob
      ∧ (waitingButtonRev2 env resp s).job.Id = 0
      ∧ (waitingButtonRev2 env resp s).gizmoFile = none) := by
  rw [remoteSaysCancelling, decide_eq_false_iff_not] at hrc
  have hclock : ¬(t0 + waitingForButtonInterval > env.now) := not_lt.mpr hnow
  have hsch' : ¬(s.job.Scheduled > env.now) := by
    rw [hsch]
    exact not_lt.mpr hnow
  simp +decide [waitingButtonRev1, waitingButtonRev2, hrc, hg, hclock, hsch',
    UpdateStatus, doReport, reportJobStatusChange, statusWithProgress]

/-- C2 witness: a concrete job fetched at `t0 = 400` (file mtime 400,
`Scheduled = 1000`) timing out at the tick at `now = 1000`. -/
theorem buttonTimeout_tick_witness :
    DaemonState.gizmoFile ⟨⟨7, "", "", "", "Waiting for a button", 0, .Idle, 400, 1000⟩,
        ⟨0, "", "", "", "", 0, .Idle, 0, 0⟩, some 400, 0, [], []⟩ = some 400
    ∧ (400 : Int) + waitingForButtonInterval ≤ 1000
    ∧ (waitingButtonRev2
        ⟨1000, .transportErr, .transportErr, false, true, true, 0, .Idle, .ok 200 "", .ok 200 ""⟩
        .transportErr
        ⟨⟨7, "", "", "", "Waiting for a button", 0, .Idle, 400, 1000⟩,
          ⟨0, "", "", "", "", 0, .Idle, 0, 0⟩, some 400, 0, [], []⟩).reports
      = [] ++ [StatusButtonTimeout, StatusWaitingJob] :=
  ⟨rfl, by decide,
    (buttonTimeout_tick
      ⟨1000, .transportErr, .transportErr, false, true, true, 0, .Idle, .ok 200 "", .ok 200 ""⟩
      .transportErr
      ⟨⟨7, "", "", "", "Waiting for a button", 0, .Idle, 400, 1000⟩,
        ⟨0, "", "", "", "", 0, .Idle, 0, 0⟩, some 400, 0, [], []⟩ 400
      rfl (by decide) (by decide) (by decide)).2.1⟩

/-- C6: in state `Printing`, when the signal file is present and the remote
fetch does not report `Cancelling`, both revisions copy `feeder.Progress()`
into `Job.Progress` and `feeder.Status()` into the feeder-status field, then
map feeder `Finished ↦ Finished`, feeder `Error ↦ Cancelling` and leave any
other feeder status in `Printing`; and the branch always posts exactly one
status report, carrying the progress string of the updated job. -/
theorem printing_progress_branch (env : TickEnv) (resp : HttpOutcome)
    (s : DaemonState) (m : Int)
    (hg : s.gizmoFile = some m)
    (hp : s.job.Status = StatusPrinting)
    (hrc : remoteSaysCancelling resp s.iejob = false) :
    ((printingRev1 env resp s).job.Progress = (env.feederProgress : ℚ)
      ∧ (printingRev1 env resp s).job.feederStatus = env.feederStat
      ∧ (env.feederStat = .Finished →
          (printingRev1 env resp s).job.Status = StatusFinished)
      ∧ (env.feederStat = .Error →
          (printingRev1 env resp s).job.Status = StatusCancelling)
      ∧ (env.feederStat ≠ .Finished → env.feederStat ≠ .Error →
          (printingRev1 env resp s).job.Status = StatusPrinting)
      ∧ (printingRev1 env resp s).reports
          = s.reports ++ [statusWithProgress (printingRev1 env resp s).job]
      ∧ (env.feederStat = .Printing →
          (printingRev1 env resp s).reports
            = s.reports ++ ["Printing... (" ++ fmtF1 (env.feederProgress : ℚ) ++ "%)"]))
    ∧ ((printingRev2 env resp s).job.Progress = (env.feederProgress : ℚ)
      ∧ (printingRev2 env resp s).job.feederStatus = env.feederStat
      ∧ (env.feederStat = .Finished →
          (printingRev2 env resp s).job.Status = StatusFinished)
      ∧ (env.feederStat = .Error →
          (printingRev2 env resp s).job.Status = StatusCancelling)
      ∧ (env.feederStat ≠ .Finished → env.feederStat ≠ .Error →
          (printingRev2 env resp s).job.Status = StatusPrinting)
      ∧ (printingRev2 env resp s).reports
          = s.reports ++ [statusWithProgress (printingRev2 env resp s).job]
      ∧ (env.feederStat = .Printing →
          (printingRev2 env resp s).reports
            = s.reports ++ ["Printing... (" ++ fmtF1 (env.feederProgress : ℚ) ++ "%)"])) := by
  rw [remoteSaysCancelling, decide_eq_false_iff_not] at hrc
  obtain ⟨now, f1, f2, bp, wok, nok, fprog, fstat, rr, dr⟩ := env
  cases fstat <;>
    simp +decide [printingRev1, printingRev2, hg, hp, hrc,
      UpdateStatus, doReport, reportJobStatusChange, statusWithProgress]

/-- C6 witness: a printing job with the feeder actively printing at 42%
stays `Printing` and reports the progress string. -/
theorem printing_progress_branch_witness :
    Job.Status ⟨7, "", "", "", "Printing", 0, .Idle, 0, 0⟩ = StatusPrinting
    ∧ (printingRev1
        ⟨1000, .transportErr, .transportErr, false, true, true, 42, .Printing, .ok 200 "", .ok 200 ""⟩
        .transportErr
        ⟨⟨7, "", "", "", "Printing", 0, .Idle, 0, 0⟩,
          ⟨0, "", "", "", "", 0, .Idle, 0, 0⟩, some 500, 0, [], []⟩).reports
      = [] ++ ["Printing... (" ++ fmtF1 ((42 : Int) : ℚ) ++ "%)"] :=
  ⟨by decide,
    ((printing_progress_branch
      ⟨1000, .transportErr, .transportErr, false, true, true, 42, .Printing, .ok 200 "", .ok 200 ""⟩
      .transportErr
      ⟨⟨7, "", "", "", "Printing", 0, .Idle, 0, 0⟩,
        ⟨0, "", "", "", "", 0, .Idle, 0, 0⟩, some 500, 0, [], []⟩ 500
      rfl (by decide) (by decide)).1.2.2.2.2.2.2) rfl⟩
